import Mathlib

/-!
Shallow embedding of the `relevant` crate (`src/lib.rs`): the zero-sized
`Relevant` obligation marker, its `dispose` operation (`mem::forget`), its
`Drop` implementation (which calls `whine`), and the `whine` handler selected
by the `cfg_if` chain over the `log` and `std` cargo features.
-/

/-- The `Relevant` marker type, `pub struct Relevant;`: a unit struct with no
fields. Every live value of this type is a pending disposal obligation. -/
structure Relevant where
deriving DecidableEq

/-- Build-time cargo feature selection that `whine` branches on: the `log`
feature and the `std` feature (the `serde-1` feature only adds derives). -/
structure Features where
  log : Bool
  std : Bool
deriving DecidableEq

/-- Observable events of a run: `disposed` marks `Relevant::dispose`
consuming a marker via `std::mem::forget` (which suppresses the drop glue and
has no panic or log effect of its own), `panicked` is a `panic!` with its
message, and `logError` is a `log::error!` record with its message. -/
inductive Event where
  | disposed : Event
  | panicked : String → Event
  | logError : String → Event
deriving DecidableEq

/-- The fixed message used by every branch of `whine`. -/
def dropMessage : String := "Values of this type can't be dropped!"

/-- The `whine` function, translated from the `cfg_if` chain: with feature
`log` it emits `log::error!` with the fixed message; otherwise, with feature
`std`, it panics with the fixed message unless `std::thread::panicking()`
holds; otherwise it panics with the fixed message unconditionally. The
argument `panicking` is the value of `std::thread::panicking()` for the
current thread at the time of the call. -/
def whine (f : Features) (panicking : Bool) : List Event :=
  if f.log then
    [Event.logError dropMessage]
  else if f.std then
    if panicking then [] else [Event.panicked dropMessage]
  else
    [Event.panicked dropMessage]

/-- `Relevant::dispose`: consumes the marker by value with
`std::mem::forget(self)`, so the `Drop` implementation never runs; the only
event in the trace is the consumption itself, never a panic or a log. -/
def Relevant.dispose (_ : Relevant) : List Event := [Event.disposed]

/-- The `Drop` implementation for `Relevant`: `fn drop(&mut self) { whine() }`. -/
def Relevant.dropGlue (f : Features) (panicking : Bool) : List Event :=
  whine f panicking

/-- The two paths by which a live (pending) marker can cease to exist:
explicit disposal, or being dropped (scope exit, aggregate drop, unwind). -/
inductive Exit where
  | dispose : Exit
  | drop : Exit
deriving DecidableEq

/-- The trace of events produced when marker `m` ceases to exist by the given
path, under feature selection `f` with thread-panicking state `panicking`. -/
def terminate (f : Features) (panicking : Bool) (m : Relevant) : Exit → List Event
  | Exit.dispose => Relevant.dispose m
  | Exit.drop => Relevant.dropGlue f panicking

/-- Whether an event is a `panic!`. -/
def Event.isPanic : Event → Bool
  | Event.panicked _ => true
  | _ => false

/-- Whether an event is a `log::error!` record. -/
def Event.isLogError : Event → Bool
  | Event.logError _ => true
  | _ => false

/-- Whether an event is a marker disposal. -/
def Event.isDisposed : Event → Bool
  | Event.disposed => true
  | _ => false

/-- A trace raises a fatal error iff it contains a panic event. -/
def raises (t : List Event) : Bool := t.any Event.isPanic

/-- A trace logs iff it contains an error-level log record. -/
def logsError (t : List Event) : Bool := t.any Event.isLogError

/-- Number of error-level log records in a trace. -/
def logCount (t : List Event) : Nat := t.countP fun e => Event.isLogError e

/-- Number of marker disposals in a trace. -/
def disposeCount (t : List Event) : Nat := t.countP fun e => Event.isDisposed e

/-- Derived `PartialEq` for the fieldless struct `Relevant`: with no fields to
compare, `eq` is always `true`. -/
def Relevant.beq (_ _ : Relevant) : Bool := true

/-- Derived `Ord::cmp` for the fieldless struct: always `Ordering::Equal`. -/
def Relevant.cmp (_ _ : Relevant) : Ordering := Ordering.eq

/-- Derived `PartialOrd::partial_cmp` for the fieldless struct: always
`Some(Ordering::Equal)`. -/
def Relevant.partialCmp (_ _ : Relevant) : Option Ordering := some Ordering.eq

/-- Derived `Hash` for the fieldless struct: writes nothing to the hasher, so
the hasher state (modelled as a `Nat`) is unchanged. -/
def Relevant.hashInto (s : Nat) (_ : Relevant) : Nat := s

/-- Derived `Clone` for the fieldless struct: produces a new marker value. -/
def Relevant.clone (_ : Relevant) : Relevant := Relevant.mk

/-- Construction of `Relevant`: the unit struct literal. No inputs, total. -/
def Relevant.new : Relevant := Relevant.mk

/-- The serialized form of a serde unit struct: a unit value with no data. -/
inductive UnitValue where
  | unit : UnitValue
deriving DecidableEq

/-- Derived `serde::Serialize` for the unit struct `Relevant` (feature
`serde-1`): serializes as a unit value carrying no data. -/
def Relevant.serialize (_ : Relevant) : UnitValue := UnitValue.unit

/-- Derived `serde::Deserialize` for the unit struct `Relevant` (feature
`serde-1`): reads the unit value and yields a marker. -/
def Relevant.deserialize (_ : UnitValue) : Relevant := Relevant.mk

/-- Modelled from the spec: a host aggregate type with a `Relevant` marker
field and some data of its own. The repository defines no such aggregate; the
spec describes host types that embed the marker and thereby inherit its
disposal obligation. -/
structure Host where
  relevant : Relevant
  payload : Nat
deriving DecidableEq

/-- Modelled from the spec: the host's explicit disposal path deconstructs the
aggregate and calls `Relevant::dispose` on the embedded marker. -/
def Host.dispose (h : Host) : List Event := Relevant.dispose h.relevant

/-- Rust drop glue for `Host` (which has no `Drop` impl of its own): it drops
each field in order, running `Relevant`'s `Drop` for the marker field; the
`payload` field contributes no events. -/
def Host.dropGlue (f : Features) (panicking : Bool) : List Event :=
  Relevant.dropGlue f panicking ++ []

/-- A marker and its clone ceasing to exist one after the other: the combined
trace is the concatenation of each copy's own termination trace. -/
def cloneTrace (f : Features) (panicking : Bool) (m : Relevant)
    (e1 e2 : Exit) : List Event :=
  terminate f panicking (Relevant.clone m) e1 ++ terminate f panicking m e2

/-- C1: for every feature selection, panicking state and marker, the
termination handler fires exactly on the non-dispose path: disposing the
marker raises nothing and logs nothing, while any drop of a pending marker
invokes the `whine` handler. -/
theorem dispose_silent_drop_invokes_handler :
    ∀ (f : Features) (pk : Bool) (m : Relevant),
      raises (terminate f pk m Exit.dispose) = false ∧
      logsError (terminate f pk m Exit.dispose) = false ∧
      terminate f pk m Exit.drop = whine f pk := by
  intro f pk m
  exact ⟨rfl, rfl, rfl⟩

/-- C2: in fatal mode (`std` enabled, `log` disabled), dropping a pending
marker while the thread is not panicking raises a panic with the exact fixed
message "Values of this type can't be dropped!". -/
theorem fatal_mode_panics (f : Features) (pk : Bool) (m : Relevant)
    (hlog : f.log = false) (hstd : f.std = true) (hpk : pk = false) :
    terminate f pk m Exit.drop =
      [Event.panicked "Values of this type can't be dropped!"] := by
  subst hpk
  simp [terminate, Relevant.dropGlue, whine, hlog, hstd, dropMessage]

/-- Witness for C2 at the concrete fatal-mode configuration. -/
theorem fatal_mode_panics_witness :
    terminate ⟨false, true⟩ false Relevant.mk Exit.drop =
      [Event.panicked "Values of this type can't be dropped!"] :=
  fatal_mode_panics ⟨false, true⟩ false Relevant.mk rfl rfl rfl

/-- C3: in fatal mode, dropping a pending marker while the thread is already
panicking (the `std::thread::panicking()` query, a thread-local state) raises
no new error: the handler produces no event at all. -/
theorem fatal_mode_suppressed_while_panicking (f : Features) (m : Relevant)
    (hlog : f.log = false) (hstd : f.std = true) :
    terminate f true m Exit.drop = [] := by
  simp [terminate, Relevant.dropGlue, whine, hlog, hstd]

/-- Witness for C3 at the concrete fatal-mode configuration. -/
theorem fatal_mode_suppressed_witness :
    terminate ⟨false, true⟩ true Relevant.mk Exit.drop = [] :=
  fatal_mode_suppressed_while_panicking ⟨false, true⟩ Relevant.mk rfl rfl

/-- C4: in diagnostic mode (`log` enabled), dropping a pending marker
produces exactly one error-level log record with the fixed message, raises
nothing, and execution continues (no panic event in the trace). -/
theorem diagnostic_mode_logs_once (f : Features) (pk : Bool) (m : Relevant)
    (hlog : f.log = true) :
    terminate f pk m Exit.drop = [Event.logError dropMessage] ∧
    logCount (terminate f pk m Exit.drop) = 1 ∧
    raises (terminate f pk m Exit.drop) = false := by
  refine ⟨?_, ?_, ?_⟩ <;>
    simp [terminate, Relevant.dropGlue, whine, hlog, logCount, raises,
      Event.isLogError, Event.isPanic, List.countP, List.countP.go]

/-- Witness for C4 at a concrete diagnostic-mode configuration. -/
theorem diagnostic_mode_logs_once_witness :
    terminate ⟨true, true⟩ false Relevant.mk Exit.drop =
        [Event.logError dropMessage] ∧
    logCount (terminate ⟨true, true⟩ false Relevant.mk Exit.drop) = 1 ∧
    raises (terminate ⟨true, true⟩ false Relevant.mk Exit.drop) = false :=
  diagnostic_mode_logs_once ⟨true, true⟩ false Relevant.mk rfl

/-- C5: in minimal mode (neither `std` nor `log`), dropping a pending marker
raises the panic with the fixed message regardless of the panicking state:
no unwinding-state check is performed. -/
theorem minimal_mode_always_panics (f : Features) (pk : Bool) (m : Relevant)
    (hlog : f.log = false) (hstd : f.std = false) :
    terminate f pk m Exit.drop = [Event.panicked dropMessage] := by
  simp [terminate, Relevant.dropGlue, whine, hlog, hstd]

/-- Witness for C5 at the concrete minimal-mode configuration, with the
panicking state set, showing no suppression occurs. -/
theorem minimal_mode_always_panics_witness :
    terminate ⟨false, false⟩ true Relevant.mk Exit.drop =
      [Event.panicked dropMessage] :=
  minimal_mode_always_panics ⟨false, false⟩ true Relevant.mk rfl rfl

/-- C6: any two marker instances compare equal under the derived `PartialEq`,
compare as `Equal` under the derived `Ord` and `PartialOrd`, leave any hasher
state identically, and are in fact the same value as the (total, input-free)
construction `Relevant.new`. -/
theorem markers_indistinguishable :
    ∀ (a b : Relevant),
      Relevant.beq a b = true ∧
      Relevant.cmp a b = Ordering.eq ∧
      Relevant.partialCmp a b = some Ordering.eq ∧
      (∀ s : Nat, Relevant.hashInto s a = Relevant.hashInto s b) ∧
      a = Relevant.new := by
  intro a b
  exact ⟨rfl, rfl, rfl, fun s => rfl, rfl⟩

/-- C7: a host aggregate's explicit disposal path disposes the embedded
marker exactly once and neither raises nor logs, and implicitly dropping the
aggregate produces exactly the trace of dropping a bare marker under the same
configuration. -/
theorem host_obligation :
    ∀ (h : Host) (f : Features) (pk : Bool) (m : Relevant),
      disposeCount (Host.dispose h) = 1 ∧
      raises (Host.dispose h) = false ∧
      logsError (Host.dispose h) = false ∧
      Host.dropGlue f pk = terminate f pk m Exit.drop := by
  intro h f pk m
  refine ⟨rfl, rfl, rfl, ?_⟩
  simp [Host.dropGlue, terminate]

/-- C8: with serialization enabled, every marker serializes to the unit value
carrying no data, deserializing that value returns the marker (round-trip),
and the deserialized marker is pending: dropping it invokes the handler. -/
theorem serde_round_trip :
    ∀ (m : Relevant) (f : Features) (pk : Bool),
      Relevant.serialize m = UnitValue.unit ∧
      Relevant.deserialize (Relevant.serialize m) = m ∧
      terminate f pk (Relevant.deserialize (Relevant.serialize m)) Exit.drop =
        whine f pk := by
  intro m f pk
  exact ⟨rfl, rfl, rfl⟩

/-- C9: with both `log` and `std` enabled, the `log` branch of the `cfg_if`
chain wins: dropping a pending marker emits the error log record, never
panics, and the result does not depend on the thread-panicking state (the
suppression check is not consulted). -/
theorem log_takes_precedence_over_std (f : Features) (pk : Bool) (m : Relevant)
    (hlog : f.log = true) (hstd : f.std = true) :
    terminate f pk m Exit.drop = [Event.logError dropMessage] ∧
    raises (terminate f pk m Exit.drop) = false ∧
    terminate f true m Exit.drop = terminate f false m Exit.drop := by
  refine ⟨?_, ?_, ?_⟩ <;>
    simp [terminate, Relevant.dropGlue, whine, hlog, raises, Event.isPanic]

/-- Witness for C9 at the concrete configuration with both features on and
the panicking state set. -/
theorem log_takes_precedence_witness :
    terminate ⟨true, true⟩ true Relevant.mk Exit.drop =
        [Event.logError dropMessage] ∧
    raises (terminate ⟨true, true⟩ true Relevant.mk Exit.drop) = false ∧
    terminate ⟨true, true⟩ true Relevant.mk Exit.drop =
      terminate ⟨true, true⟩ false Relevant.mk Exit.drop :=
  log_takes_precedence_over_std ⟨true, true⟩ true Relevant.mk rfl rfl

/-- C10: cloning a pending marker yields a new pending marker: dropping the
clone invokes the handler like any marker, disposing the clone and then
dropping the original still invokes the handler for the original (and
symmetrically), so each copy carries its own independent obligation. -/
theorem clone_copies_are_independent :
    ∀ (m : Relevant) (f : Features) (pk : Bool),
      terminate f pk (Relevant.clone m) Exit.drop = whine f pk ∧
      cloneTrace f pk m Exit.dispose Exit.drop =
        Event.disposed :: whine f pk ∧
      cloneTrace f pk m Exit.drop Exit.dispose =
        whine f pk ++ [Event.disposed] := by
  intro m f pk
  refine ⟨rfl, ?_, ?_⟩ <;>
    simp [cloneTrace, terminate, Relevant.dispose, Relevant.dropGlue]
